import Mathlib

/-!
Shallow embedding of the tmdb-notion-integration repository (final revisions:
the TMDB metadata module and `src/services/notionService.js`), together with
theorems settling the frozen claims about the specification.

JavaScript strings are modelled as Lean `String`s; string routines that the
source uses (`split`, `trim`, `toLowerCase`, `slice(0,-1)`, lexicographic
`>` on strings) are re-implemented below over `List Char` so that they are
structurally recursive and evaluate inside `decide`.  JavaScript comparison
of strings is by UTF-16 code units; for the ASCII data handled here this
coincides with the code-point comparison used below.
-/

namespace TmdbNotion

/-- Code-unit ("less than") comparison of character lists, mirroring the
JavaScript relational operator on strings. -/
def charsLt : List Char → List Char → Bool
  | [], [] => false
  | [], _ :: _ => true
  | _ :: _, [] => false
  | a :: as, b :: bs =>
    if a.val < b.val then true
    else if b.val < a.val then false
    else charsLt as bs

/-- JavaScript `a < b` on strings. -/
def jsStrLt (a b : String) : Bool := charsLt a.data b.data

/-- JavaScript `a > b` on strings. -/
def jsStrGt (a b : String) : Bool := jsStrLt b a

/-- JavaScript `String.prototype.trim`: strip whitespace from both ends. -/
def jsTrim (cs : List Char) : List Char :=
  ((cs.dropWhile Char.isWhitespace).reverse.dropWhile Char.isWhitespace).reverse

/-- JavaScript `String.prototype.toLowerCase` (ASCII fragment). -/
def jsToLower (cs : List Char) : List Char := cs.map Char.toLower

/-- JavaScript `String.prototype.split` with a single-character separator
class: splits at every separator occurrence, keeping empty pieces. -/
def splitBy (p : Char → Bool) : List Char → List (List Char)
  | [] => [[]]
  | c :: cs =>
    if p c then [] :: splitBy p cs
    else
      match splitBy p cs with
      | [] => [[c]]
      | g :: gs => (c :: g) :: gs

/-- JavaScript `s.slice(0, -1)`: drop the final character. -/
def sliceDropLast (cs : List Char) : List Char := cs.dropLast

/-- JavaScript object-key assignment `m[k] = v` on a string-keyed record,
keeping first-insertion key order and overwriting an existing value. -/
def jsObjSet (m : List (String × String)) (k v : String) : List (String × String) :=
  if m.any (fun p => p.1 == k) then
    m.map (fun p => if p.1 == k then (k, v) else p)
  else
    m ++ [(k, v)]

/-- JavaScript truthiness of a possibly-absent string property
(`undefined` and the empty string are falsy). -/
def truthyStr : Option String → Bool
  | none => false
  | some s => s != ""

/-- JavaScript truthiness of a possibly-absent numeric property
(`undefined` and `0` are falsy). -/
def truthyNat : Option Nat → Bool
  | none => false
  | some n => n != 0

/-- JavaScript truthiness of a possibly-absent rational property. -/
def truthyRat : Option ℚ → Bool
  | none => false
  | some q => q != 0

/-- JavaScript truthiness of a possibly-absent array property: any array,
including the empty one, is truthy. -/
def truthyList {α : Type} : Option (List α) → Bool
  | none => false
  | some _ => true

/-! ## Query parser (final TMDB module, `validateQueryFilters` / `parseQueryString`) -/

/-- Valid filter keys, from `validateQueryFilters` in the final TMDB module. -/
def validKeys : List String :=
  ["year", "y", "type", "t", "episode", "e", "season", "s",
   "all_seasons", "all_episodes", "all"]

/-- Value patterns of `validValues` in `validateQueryFilters`, one test per
canonical key (`none` when the key has no pattern entry; reaching the JS
`validValues[key].test` with such a key would raise, but `parseQueryString`
canonicalizes alias keys before validating, so that path is unreachable
from the parser). -/
def validValueTest : String → Option (String → Bool)
  | "year" => some (fun v => v.data.length == 4 && v.data.all Char.isDigit)
  | "type" => some (fun v =>
      ["movie", "film", "tv", "television", "series", "show"].contains v)
  | "season" => some (fun v => !v.data.isEmpty && v.data.all Char.isDigit)
  | "episode" => some (fun v => !v.data.isEmpty && v.data.all Char.isDigit)
  | "all_seasons" => some (fun v => ["true", "false", "yes", "no"].contains v)
  | "all_episodes" => some (fun v => ["true", "false", "yes", "no"].contains v)
  | _ => none

/-- Embeds `validateQueryFilters(key, value)` of the final TMDB module:
reject unknown keys, then test the value against the key's pattern.  Note
the final revision has no `language`, `lang` or `l` entry in `validKeys`. -/
def validateQueryFilters (key value : String) : Bool :=
  if !(validKeys.contains key) then false
  else
    match validValueTest key with
    | some test => test value
    | none => false

/-- Alias normalization `keyMapping` of `parseQueryString` in the final TMDB
module: y→year, t→type, s→season, e→episode, all→all_episodes.  The final
revision has no `lang`/`l`→`language` entries. -/
def mapAlias (key : String) : String :=
  if key == "y" then "year"
  else if key == "t" then "type"
  else if key == "s" then "season"
  else if key == "e" then "episode"
  else if key == "all" then "all_episodes"
  else key

/-- Parsed query: trimmed main query plus the validated filter map. -/
structure TmdbQuery where
  mainQuery : String
  filters : List (String × String)
  deriving Repr, DecidableEq

/-- Pieces of one `key(:|=)value` filter pair: split on `:` or `=`, then
trim and lowercase each piece (the loop body of `parseQueryString`). -/
def pairItems (pair : List Char) : List (List Char) :=
  (splitBy (fun c => c == ':' || c == '=') pair).map (fun w => jsToLower (jsTrim w))

/-- Canonicalized key of a filter pair (first piece, alias-mapped). -/
def pairKey (pair : List Char) : String :=
  mapAlias ⟨(pairItems pair).headD []⟩

/-- Value of a filter pair (second piece).  A pair with no separator leaves
`value` undefined in JS; the regex test then coerces it to the string
`"undefined"`. -/
def pairValue (pair : List Char) : String :=
  match (pairItems pair)[1]? with
  | some v => ⟨v⟩
  | none => "undefined"

/-- Processes one filter pair exactly as the loop body of
`parseQueryString` does: canonicalize the key, validate, and keep or
silently drop the pair. -/
def parseFilterPair (filters : List (String × String)) (pair : List Char) :
    List (String × String) :=
  if validateQueryFilters (pairKey pair) (pairValue pair)
  then jsObjSet filters (pairKey pair) (pairValue pair) else filters

/-- Filter map built from the bracket contents of the query (absent when
the split produced no second part, empty when the part is the empty string,
and otherwise the validated fold over the comma-separated pairs with the
trailing `]` dropped). -/
def parseFilters : Option (List Char) → List (String × String)
  | none => []
  | some fs =>
    if fs.isEmpty then []
    else (splitBy (· == ',') (sliceDropLast fs)).foldl parseFilterPair []

/-- Embeds `parseQueryString(queryString)` of the final TMDB module: drop the
trailing `;`, split on `[`, then split the bracket contents (with its
trailing `]` dropped) on commas and validate each pair. -/
def parseQueryString (queryString : String) : TmdbQuery :=
  let parts := splitBy (· == '[') (sliceDropLast queryString.data)
  { mainQuery := ⟨jsTrim (parts.headD [])⟩, filters := parseFilters parts[1]? }

/-- Looks a filter up in the parsed filter map (JS `tmdbQuery.filters.key`). -/
def TmdbQuery.filter? (q : TmdbQuery) (key : String) : Option String :=
  (q.filters.find? (fun p => p.1 == key)).map Prod.snd

/-! ## Raw TMDB payloads (the fields the final TMDB module reads) -/

/-- Cast entry of `credits.cast`. -/
structure CastMember where
  name : String
  deriving Repr, DecidableEq

/-- Crew entry of `credits.crew`. -/
structure CrewMember where
  job : String
  name : String
  deriving Repr, DecidableEq

/-- Embedded `credits` object. -/
structure Credits where
  cast : List CastMember
  crew : List CrewMember
  deriving Repr, DecidableEq

/-- Video entry of `videos.results`.  The source orders trailers by
`new Date(a.published_at) - new Date(b.published_at)`; `published_at` is
modelled as the epoch-milliseconds value that the `Date` parse of the ISO
timestamp yields, which is exactly what that subtraction compares. -/
structure Video where
  type : String
  site : String
  official : Bool
  published_at : Nat
  key : String
  deriving Repr, DecidableEq

/-- Embedded `videos` object. -/
structure Videos where
  results : List Video
  deriving Repr, DecidableEq

/-- Genre entry (the module reads only `name`). -/
structure Genre where
  name : String
  deriving Repr, DecidableEq

/-- Entry of a show's `seasons` listing (the module reads only
`season_number`). -/
structure SeasonStub where
  season_number : Nat
  deriving Repr, DecidableEq

/-- Entry of a season's `episodes` listing (the module reads only
`episode_number`). -/
structure EpisodeStub where
  episode_number : Nat
  deriving Repr, DecidableEq

/-- Raw movie or TV-show detail payload (`movieData` / `showData`).  Fields
the payload does not carry (e.g. `runtime` on a show, `title` on a show,
`name` on a movie) are modelled by their falsy defaults (`0`, `\"\"`), which
behave identically under every truthiness test the module performs. -/
structure MediaData where
  id : Nat
  title : String
  name : String
  tagline : String
  genres : List Genre
  runtime : Nat
  status : String
  release_date : String
  first_air_date : String
  overview : String
  poster_path : String
  backdrop_path : String
  vote_average : ℚ
  type : String
  credits : Credits
  videos : Videos
  seasons : List SeasonStub
  deriving Repr, DecidableEq

/-- Raw TV-season detail payload (`seasonData`). -/
structure SeasonData where
  id : Nat
  season_number : Nat
  name : String
  air_date : String
  overview : String
  poster_path : String
  vote_average : ℚ
  credits : Credits
  videos : Videos
  episodes : List EpisodeStub
  deriving Repr, DecidableEq

/-- Raw TV-episode detail payload (`episodeData`). -/
structure EpisodeData where
  id : Nat
  season_number : Nat
  episode_number : Nat
  name : String
  runtime : Nat
  air_date : String
  overview : String
  vote_average : ℚ
  credits : Credits
  deriving Repr, DecidableEq

/-! ## Normalized record (`details` objects built by the constructors) -/

/-- Normalized flat record handed to the destination store.  Fields are
`Option`s: `none` models a key the constructor did not put on the JS object
(absent ≠ present-but-empty matters for the destination property payload,
where an absent array and an empty array behave differently). -/
structure Details where
  title : Option String := none
  tagline : Option String := none
  genres : Option (List String) := none
  runtime : Option Nat := none
  status : Option String := none
  releaseDate : Option String := none
  synopsis : Option String := none
  director : Option String := none
  composer : Option String := none
  cast : Option (List String) := none
  poster : Option String := none
  backdrop : Option String := none
  trailer : Option String := none
  rating : Option ℚ := none
  seasonNumber : Option Nat := none
  episodeNumber : Option Nat := none
  type : Option String := none
  tmdbId : Option Nat := none
  deriving Repr, DecidableEq

/-- First crew member with the given job (JS
`credits.crew.find(member => member.job === job)`). -/
def findCrewByJob (crew : List CrewMember) (job : String) : Option CrewMember :=
  crew.find? (fun member => member.job == job)

/-- Official YouTube trailers sorted ascending by publish date, as in the
source: `videos.results.filter(...).sort((a, b) => new Date(a.published_at)
- new Date(b.published_at))`.  JavaScript's `sort` is a stable ascending
sort, which `List.insertionSort` also is, so the two agree extensionally. -/
def sortedTrailers (vs : List Video) : List Video :=
  List.insertionSort (fun a b => a.published_at ≤ b.published_at)
    (vs.filter (fun v => v.type == "Trailer" && v.site == "YouTube" && v.official))

/-- Key of the selected trailer: first element of the sorted candidates, or
`\"\"` when there is none (`trailers.length > 0 ? trailers[0].key : ''`). -/
def trailerKeyOf (vs : List Video) : String :=
  match (sortedTrailers vs).head? with
  | some v => v.key
  | none => ""

/-- Poster URL helper (`poster_path ? 'https://image.tmdb.org/t/p/w500' +
poster_path : ''`). -/
def posterUrl (p : String) : String :=
  if p != "" then "https://image.tmdb.org/t/p/w500" ++ p else ""

/-- Backdrop URL helper (original-resolution transform). -/
def backdropUrl (p : String) : String :=
  if p != "" then "https://image.tmdb.org/t/p/original" ++ p else ""

/-- Trailer URL helper (`trailerKey ? 'https://www.youtube.com/watch?v=' +
trailerKey : ''`). -/
def trailerUrl (k : String) : String :=
  if k != "" then "https://www.youtube.com/watch?v=" ++ k else ""

/-- Embeds `constructDetails(data, isTelevision)` of the final TMDB module. -/
def constructDetails (data : MediaData) (isTelevision : Bool) : Details :=
  let directorName :=
    if isTelevision then ""
    else
      match findCrewByJob data.credits.crew "Director" with
      | some d => d.name
      | none => ""
  let cast :=
    if isTelevision then (data.credits.cast.take 20).map (fun a => a.name)
    else (data.credits.cast.take 10).map (fun a => a.name)
  let composerName :=
    match findCrewByJob data.credits.crew "Original Music Composer" with
    | some c => c.name
    | none => ""
  let trailerKey := trailerKeyOf data.videos.results
  { title := some (if data.title != "" then data.title else data.name)
    tagline := some data.tagline
    genres := some (data.genres.map (fun g => g.name))
    runtime := some data.runtime
    status := some data.status
    releaseDate := some (if data.release_date != "" then data.release_date else data.first_air_date)
    synopsis := some data.overview
    director := some directorName
    composer := some composerName
    cast := some cast
    poster := some (posterUrl data.poster_path)
    backdrop := some (backdropUrl data.backdrop_path)
    trailer := some (trailerUrl trailerKey)
    rating := some data.vote_average
    type := some (if isTelevision then (if data.type == "Miniseries" then "Miniseries" else "Television") else "Movie")
    tmdbId := some data.id }

/-- Embeds `constructSeasonDetails(seasonData, showData)` of the final TMDB
module, for the call path where `showData` is supplied (the only path the
resolver uses; when `showData` is absent the source refetches it and then
proceeds identically).  `today` stands for
`new Date().toISOString().split('T')[0]`. -/
def constructSeasonDetails (seasonData : SeasonData) (showData : MediaData)
    (today : String) : Details :=
  let seasonComposerName :=
    match findCrewByJob seasonData.credits.crew "Original Music Composer" with
    | some c => c.name
    | none =>
      match findCrewByJob showData.credits.crew "Original Music Composer" with
      | some c => c.name
      | none => ""
  let seasonCast := (seasonData.credits.cast.take 15).map (fun a => a.name)
  let seasonTrailerKey := trailerKeyOf seasonData.videos.results
  { title := some seasonData.name
    genres := some (showData.genres.map (fun g => g.name))
    status := some (if jsStrGt today seasonData.air_date && showData.status != "Canceled"
      then "Released" else showData.status)
    releaseDate := some seasonData.air_date
    synopsis := some (if seasonData.overview != "" then seasonData.overview
      else if seasonData.season_number == 1 then showData.overview else "")
    composer := some seasonComposerName
    cast := some seasonCast
    poster := some (posterUrl seasonData.poster_path)
    backdrop := some (backdropUrl showData.backdrop_path)
    trailer := some (trailerUrl seasonTrailerKey)
    rating := some seasonData.vote_average
    seasonNumber := some seasonData.season_number
    type := some "Television Season"
    tmdbId := some seasonData.id }

/-- Embeds `constructEpisodeDetails(episodeData, showData, seasonData)` of
the final TMDB module, for the call path where `showData` and `seasonData`
are supplied (when absent the source refetches them and then proceeds
identically).  Note the status comparison reads `seasonData.air_date`, not
the episode's own `air_date`. -/
def constructEpisodeDetails (episodeData : EpisodeData) (showData : MediaData)
    (seasonData : SeasonData) (today : String) : Details :=
  let directorName :=
    match findCrewByJob episodeData.credits.crew "Director" with
    | some d => d.name
    | none => ""
  let episodeComposerName :=
    match findCrewByJob episodeData.credits.crew "Original Music Composer" with
    | some c => c.name
    | none =>
      match findCrewByJob seasonData.credits.crew "Original Music Composer" with
      | some c => c.name
      | none =>
        match findCrewByJob showData.credits.crew "Original Music Composer" with
        | some c => c.name
        | none => ""
  let episodeCast := (episodeData.credits.cast.take 10).map (fun a => a.name)
  { title := some episodeData.name
    genres := some (showData.genres.map (fun g => g.name))
    runtime := some episodeData.runtime
    status := some (if jsStrGt today seasonData.air_date && showData.status != "Canceled"
      then "Released" else showData.status)
    releaseDate := some episodeData.air_date
    synopsis := some episodeData.overview
    director := some directorName
    composer := some episodeComposerName
    cast := some episodeCast
    poster := some (posterUrl seasonData.poster_path)
    backdrop := some (backdropUrl showData.backdrop_path)
    rating := some episodeData.vote_average
    seasonNumber := some episodeData.season_number
    episodeNumber := some episodeData.episode_number
    type := some "Television Episode"
    tmdbId := some episodeData.id }

/-! ## Metadata resolver (search and hierarchical fetch) -/

/-- Entry of a TMDB search response (`results` items; the module reads `id`
and `media_type`). -/
structure SearchResult where
  id : Nat
  media_type : String
  deriving Repr, DecidableEq

/-- Network oracle standing for the TMDB HTTP transport.  Each field models
one endpoint; `none` models a request that fails (the axios promise
rejects / the wrapper throws). -/
structure TmdbApi where
  search : String → List (String × String) → Option (List SearchResult)
  movieById : Nat → Option MediaData
  showById : Nat → Option MediaData
  seasonByNumber : Nat → Nat → Option SeasonData
  episodeByNumber : Nat → Nat → Nat → Option EpisodeData

/-- Episode numbers fetched in incremental mode (the `newEpisodes` list of
`fetchTelevisionSeasonDetails`): episodes of the season whose number is not
already present locally. -/
def newEpisodeNumbers (seasonData : SeasonData) (currentEpisodes : List Nat) :
    List Nat :=
  (seasonData.episodes.filter
    (fun episode => !currentEpisodes.contains episode.episode_number)).map
    (fun episode => episode.episode_number)

/-- Season numbers fetched in incremental mode (the `newSeasons` list of
`fetchTelevisionShowDetails`): seasons of the show with a positive number
(season 0, \"Specials\", is excluded) not already present locally. -/
def newSeasonNumbers (showData : MediaData) (currentSeasons : List Nat) :
    List Nat :=
  ((showData.seasons.filter (fun season => season.season_number > 0)).filter
    (fun season => !currentSeasons.contains season.season_number)).map
    (fun season => season.season_number)

/-- Result shape of `fetchTelevisionSeasonDetails`: always `seasonData`,
plus `episodesData` when episodes were requested. -/
structure SeasonFetch where
  seasonData : SeasonData
  episodesData : Option (List EpisodeData)
  deriving Repr, DecidableEq

/-- Embeds `fetchTelevisionSeasonDetails(showId, seasonNumber,
includeEpisodes, currentEpisodes)`: fetch the season, and when episodes are
requested fetch exactly the episodes whose numbers are not in
`currentEpisodes` (a failed episode fetch rejects the joint `Promise.all`,
which the function surfaces as a throw, modelled by `none`). -/
def fetchTelevisionSeasonDetails (api : TmdbApi) (showId seasonNumber : Nat)
    (includeEpisodes : Bool) (currentEpisodes : List Nat) : Option SeasonFetch :=
  match api.seasonByNumber showId seasonNumber with
  | none => none
  | some seasonData =>
    if includeEpisodes then
      match (newEpisodeNumbers seasonData currentEpisodes).mapM
          (fun n => api.episodeByNumber showId seasonNumber n) with
      | none => none
      | some eps => some { seasonData := seasonData, episodesData := some eps }
    else some { seasonData := seasonData, episodesData := none }

/-- Result shape of `fetchTelevisionShowDetails`: always `showData`; with
seasons requested also `seasonsData`; in the miniseries path (episodes
without seasons) `seasonData`/`episodesData` of season 1. -/
structure ShowFetch where
  showData : MediaData
  seasonsData : Option (List SeasonFetch)
  seasonData : Option SeasonData
  episodesData : Option (List EpisodeData)
  deriving Repr, DecidableEq

/-- Embeds `fetchTelevisionShowDetails(showId, includeSeasons,
currentSeasons, includeEpisodes, currentEpisodes)`: fetch the show; when
seasons are requested, fetch exactly the seasons whose number is positive
and not in `currentSeasons` (each with its episodes when requested);
otherwise, when only episodes are requested (miniseries path), fetch season
1 with the episode-set difference against `currentEpisodes`. -/
def fetchTelevisionShowDetails (api : TmdbApi) (showId : Nat)
    (includeSeasons : Bool) (currentSeasons : List Nat)
    (includeEpisodes : Bool) (currentEpisodes : List Nat) : Option ShowFetch :=
  match api.showById showId with
  | none => none
  | some showData =>
    if includeSeasons then
      match (newSeasonNumbers showData currentSeasons).mapM
          (fun seasonNumber =>
            fetchTelevisionSeasonDetails api showId seasonNumber includeEpisodes []) with
      | none => none
      | some seasonsData =>
        some { showData := showData, seasonsData := some seasonsData
               seasonData := none, episodesData := none }
    else if includeEpisodes then
      match fetchTelevisionSeasonDetails api showId 1 true currentEpisodes with
      | none => none
      | some sf =>
        some { showData := showData, seasonsData := none
               seasonData := some sf.seasonData, episodesData := sf.episodesData }
    else
      some { showData := showData, seasonsData := none
             seasonData := none, episodesData := none }

/-- Search request as assembled by `fetchTMDBDetails` before the initial
search: URL (absent when the validated `type` value matches neither media
list, in which case axios rejects) and query parameters in assembly order. -/
structure SearchOptions where
  url : Option String
  params : List (String × String)
  deriving Repr, DecidableEq

/-- Movie-type filter values (`movieTypes` in `fetchTMDBDetails`). -/
def movieTypes : List String := ["movie", "film"]

/-- TV-type filter values (`tvTypes` in `fetchTMDBDetails`). -/
def tvTypes : List String := ["tv", "television", "series", "show"]

/-- Filter values treated as true (`trueFilters` in `fetchTMDBDetails`). -/
def trueFilters : List String := ["true", "yes"]

/-- Embeds the search setup of `fetchTMDBDetails`: scope the search by the
`type` filter and add the `year` filter under the scope-specific parameter
name.  No branch ever adds a `language` parameter (the final revision
dropped language support). -/
def buildSearchOptions (q : TmdbQuery) : SearchOptions :=
  let baseParams := [("query", q.mainQuery)]
  let typeF := (q.filter? "type").getD ""
  let yearF := (q.filter? "year").getD ""
  if truthyStr (q.filter? "type") then
    if movieTypes.contains typeF then
      { url := some "https://api.themoviedb.org/3/search/movie"
        params := if truthyStr (q.filter? "year")
          then baseParams ++ [("primary_release_year", yearF)] else baseParams }
    else if tvTypes.contains typeF then
      { url := some "https://api.themoviedb.org/3/search/tv"
        params := if truthyStr (q.filter? "year")
          then baseParams ++ [("year", yearF)] else baseParams }
    else { url := none, params := baseParams }
  else
    { url := some "https://api.themoviedb.org/3/search/multi", params := baseParams }

/-- Numeric value of a validated digit string, standing for the URL
interpolation of the season/episode filter into the TMDB endpoint path. -/
def digitsToNat (s : String) : Nat :=
  s.data.foldl (fun n c => n * 10 + (c.toNat - Char.toNat '0')) 0

/-- Normalized tree returned by the resolver: a record plus optional nested
season trees and optional nested episode records (the `.seasons` /
`.episodes` arrays the source attaches to its `details` objects). -/
inductive DetailsTree where
  | node (base : Details) (seasons : Option (List DetailsTree))
      (episodes : Option (List DetailsTree))

/-- Flat record at the root of a normalized tree. -/
def DetailsTree.base : DetailsTree → Details
  | .node b _ _ => b

/-- Nested season trees (`details.seasons`). -/
def DetailsTree.seasons : DetailsTree → Option (List DetailsTree)
  | .node _ s _ => s

/-- Nested episode records (`details.episodes`). -/
def DetailsTree.episodes : DetailsTree → Option (List DetailsTree)
  | .node _ _ e => e

/-- Resolver outcome: a structured error record (`{error: message}`) or a
normalized tree.  The JS function only ever returns one of these — every
await sits in a try/catch — so the embedding is total. -/
inductive FetchOutcome where
  | failure (msg : String)
  | success (t : DetailsTree)

/-- Tests whether an outcome is the given structured error. -/
def FetchOutcome.isError (o : FetchOutcome) (msg : String) : Bool :=
  match o with
  | .failure m => m == msg
  | .success _ => false

/-- Embeds `fetchTMDBDetails(name)` of the final TMDB module: parse and
validate the query, run the scoped search, resolve the first hit as a movie
or show, then fetch the filtered season/episode or the full catalog as the
filters request.  `today` stands for the date the constructors compare
against; `api` is the network oracle. -/
def fetchTMDBDetails (api : TmdbApi) (today : String) (name : String) : FetchOutcome :=
  let tmdbQuery := parseQueryString name
  if tmdbQuery.mainQuery == "" then .failure "Invalid query!"
  else if truthyStr (tmdbQuery.filter? "episode") && !truthyStr (tmdbQuery.filter? "season") then
    .failure "If you specify an episode number, you must also specify the season number!"
  else
    let options := buildSearchOptions tmdbQuery
    let typeF := (tmdbQuery.filter? "type").getD ""
    match options.url with
    | none => .failure "An error occurred while searching TMDB!"
    | some url =>
      match api.search url options.params with
      | none => .failure "An error occurred while searching TMDB!"
      | some results =>
        match results.head? with
        | none => .failure "No results found!"
        | some result =>
          if movieTypes.contains typeF || result.media_type == "movie" then
            match api.movieById result.id with
            | none => .failure "An error occurred while fetching movie details from TMDB!"
            | some movieData => .success (.node (constructDetails movieData false) none none)
          else if tvTypes.contains typeF || result.media_type == "tv" then
            match api.showById result.id with
            | none => .failure "An error occurred while fetching TV show details from TMDB!"
            | some showData =>
              let showDetails := constructDetails showData true
              if truthyStr (tmdbQuery.filter? "season") then
                let seasonNumber := digitsToNat ((tmdbQuery.filter? "season").getD "")
                match fetchTelevisionSeasonDetails api result.id seasonNumber
                    (truthyStr (tmdbQuery.filter? "all_episodes")) [] with
                | none => .failure "An error occurred while fetching TV season data TMDB! Ensure the season number is valid."
                | some sf =>
                  let seasonDetails := constructSeasonDetails sf.seasonData showData today
                  if truthyStr (tmdbQuery.filter? "episode") then
                    match api.episodeByNumber result.id seasonNumber
                        (digitsToNat ((tmdbQuery.filter? "episode").getD "")) with
                    | none => .failure "An error occurred while fetching TV episode details from TMDB! Ensure the season and episode numbers are valid."
                    | some episodeData =>
                      .success (.node (constructEpisodeDetails episodeData showData sf.seasonData today) none none)
                  else if truthyStr (tmdbQuery.filter? "all_episodes") then
                    let episodeNumbers := (sf.episodesData.getD []).map (fun e => e.episode_number)
                    match episodeNumbers.mapM
                        (fun n => api.episodeByNumber result.id seasonNumber n) with
                    | none => .failure "An error occurred while fetching TV season data TMDB! Ensure the season number is valid."
                    | some eps =>
                      .success (.node seasonDetails none
                        (some (eps.map (fun e =>
                          .node (constructEpisodeDetails e showData sf.seasonData today) none none))))
                  else .success (.node seasonDetails none none)
              else
                let includeSeasons := trueFilters.contains ((tmdbQuery.filter? "all_seasons").getD "")
                let includeEpisodes := trueFilters.contains ((tmdbQuery.filter? "all_episodes").getD "")
                if includeSeasons || includeEpisodes then
                  let seasons :=
                    (showData.seasons.filter (fun s => s.season_number > 0)).map
                      (fun s => s.season_number)
                  match seasons.mapM
                      (fun seasonNumber =>
                        match fetchTelevisionSeasonDetails api result.id seasonNumber includeEpisodes [] with
                        | none => none
                        | some sf =>
                          let seasonDetails := constructSeasonDetails sf.seasonData showData today
                          if includeEpisodes then
                            some (DetailsTree.node seasonDetails none
                              (some ((sf.episodesData.getD []).map (fun e =>
                                DetailsTree.node (constructEpisodeDetails e showData sf.seasonData today) none none))))
                          else some (DetailsTree.node seasonDetails none none)) with
                  | none => .failure "An error occurred while fetching TV show details from TMDB!"
                  | some seasonsDetails => .success (.node showDetails (some seasonsDetails) none)
                else .success (.node showDetails none none)
          else .failure "No results found!"

/-! ## Destination-store property payloads (`notionService.js`) -/

/-- Destination property value, one constructor per Notion property shape
the module writes. -/
inductive PropValue where
  | titleText (content : String)
  | richText (content : String)
  | multiSelect (names : List String)
  | dateStart (start : String)
  | statusName (name : String)
  | urlVal (url : String)
  | number (value : ℚ)
  | selectName (name : String)
  | checkbox (checked : Bool)
  | relation (ids : List Nat)
  deriving Repr, DecidableEq

/-- Runtime display string of `constructNotionProperties`: hours part when
the hour count is nonzero, then `' 'minutes'm'` when the minute remainder
is nonzero. -/
def runtimeDisplay (runtime : Nat) : String :=
  let runtimeHours := runtime / 60
  let runtimeMinutes := runtime % 60
  (if runtimeHours != 0 then toString runtimeHours ++ "h" else "")
    ++ (if runtimeMinutes != 0 then " " ++ toString runtimeMinutes ++ "m" else "")

/-- Rating rounded to one decimal, as `parseFloat(rating.toFixed(1))` does
for the non-negative ratings TMDB serves (round half up at the tenths
digit). -/
def roundTenth (q : ℚ) : ℚ := (⌊q * 10 + 1 / 2⌋ : ℚ) / 10

/-- Joins cast names (`details.cast.join(', ')`). -/
def joinCast (cast : List String) : String := String.intercalate ", " cast

/-- Embeds `constructNotionProperties(details)`: every field is guarded by
JavaScript truthiness of the corresponding `details` key (so `0`, `''` and
absent keys are all skipped, while any array — even an empty one — passes),
and `Refresh Metadata` is always written back to `false`. -/
def constructNotionProperties (details : Details) : List (String × PropValue) :=
  (if truthyStr details.title
    then [("Title", PropValue.titleText (details.title.getD ""))] else [])
  ++ (if truthyStr details.tagline
    then [("Tagline", PropValue.richText (details.tagline.getD ""))] else [])
  ++ (if truthyList details.genres
    then [("Genre", PropValue.multiSelect (details.genres.getD []))] else [])
  ++ (if truthyStr details.releaseDate
    then [("Release Date", PropValue.dateStart (details.releaseDate.getD ""))] else [])
  ++ (if truthyStr details.status
    then [("Release Status", PropValue.statusName (details.status.getD ""))] else [])
  ++ (if truthyNat details.runtime
    then [("Runtime", PropValue.richText (runtimeDisplay (details.runtime.getD 0)))] else [])
  ++ (if truthyStr details.synopsis
    then [("Synopsis", PropValue.richText (details.synopsis.getD ""))] else [])
  ++ (if truthyStr details.director
    then [("Director", PropValue.richText (details.director.getD ""))] else [])
  ++ (if truthyStr details.composer
    then [("Composer", PropValue.richText (details.composer.getD ""))] else [])
  ++ (if truthyList details.cast
    then [("Cast", PropValue.richText (joinCast (details.cast.getD [])))] else [])
  ++ (if truthyStr details.trailer
    then [("Trailer", PropValue.urlVal (details.trailer.getD ""))] else [])
  ++ (if truthyRat details.rating
    then [("TMDB Rating", PropValue.number (roundTenth (details.rating.getD 0)))] else [])
  ++ (if truthyNat details.seasonNumber
    then [("Season Number", PropValue.number ((details.seasonNumber.getD 0 : Nat) : ℚ))] else [])
  ++ (if truthyNat details.episodeNumber
    then [("Episode Number", PropValue.number ((details.episodeNumber.getD 0 : Nat) : ℚ))] else [])
  ++ (if truthyStr details.type
    then [("Type", PropValue.selectName (details.type.getD ""))] else [])
  ++ (if truthyNat details.tmdbId
    then [("TMDB ID", PropValue.number ((details.tmdbId.getD 0 : Nat) : ℚ))] else [])
  ++ [("Refresh Metadata", PropValue.checkbox false)]

/-! ## Reconciliation engine (`updateDatabase` and its helpers) -/

/-- CalloutBlock block attached to a page: the red error callout of
`addErrorBlock` (its content also carries a constant help link, elided
here), or the blue duplicate callout of `checkIfExists` together with its
`link_to_page` child pointing at the already-existing page. -/
inductive CalloutBlock where
  | errorCallout (msg : String)
  | duplicateCallout (linkedPage : Nat)
  deriving Repr, DecidableEq

/-- Destination page: identity, property map, external icon/cover images,
archived flag and attached annotation blocks. -/
structure NotionPage where
  id : Nat
  props : List (String × PropValue)
  icon : Option String := none
  cover : Option String := none
  archived : Bool := false
  blocks : List CalloutBlock := []
  deriving Repr, DecidableEq

/-- Destination store: the database's pages plus the id the next created
page receives. -/
structure NotionStore where
  pages : List NotionPage
  nextId : Nat
  deriving Repr, DecidableEq

/-- Property lookup on a page. -/
def NotionPage.prop? (p : NotionPage) (key : String) : Option PropValue :=
  (p.props.find? (fun kv => kv.1 == key)).map Prod.snd

/-- Numeric value of a page property (`page.properties[key].number`):
`none` models both a missing property and a `null` number. -/
def NotionPage.numberProp? (p : NotionPage) (key : String) : Option ℚ :=
  match p.prop? key with
  | some (PropValue.number v) => some v
  | _ => none

/-- Page title content (`page.properties.Title.title[0]?.text.content ||
''`). -/
def NotionPage.titleText (p : NotionPage) : String :=
  match p.prop? "Title" with
  | some (PropValue.titleText s) => s
  | _ => ""

/-- Tests whether a relation property contains the given page id (the
`relation: \x7b contains: id \x7d` database filter). -/
def NotionPage.relationContains (p : NotionPage) (key : String) (pid : Nat) : Bool :=
  match p.prop? key with
  | some (PropValue.relation ids) => ids.contains pid
  | _ => false

/-- Property-map update `m[k] = v` with Notion update semantics: the sent
keys overwrite, everything else is kept. -/
def setProp (m : List (String × PropValue)) (k : String) (v : PropValue) :
    List (String × PropValue) :=
  if m.any (fun kv => kv.1 == k) then
    m.map (fun kv => if kv.1 == k then (k, v) else kv)
  else m ++ [(k, v)]

/-- Merge a property payload into a page's property map (a `pages.update`
call: sent keys overwrite, others persist). -/
def mergeProps (old new : List (String × PropValue)) : List (String × PropValue) :=
  new.foldl (fun acc kv => setProp acc kv.1 kv.2) old

/-- Ends-with-delimiter test (`pageTitle.endsWith(notionTitleDelimiter)`,
the delimiter being `';'`). -/
def endsWithDelim (s : String) : Bool := s.data.getLast? == some ';'

/-- Delimiter-stripped title (`pageTitle.endsWith(';') ?
pageTitle.slice(0, -1) : pageTitle`). -/
def stripDelim (s : String) : String :=
  if endsWithDelim s then ⟨s.data.dropLast⟩ else s

/-- Observable store operation performed by the reconciliation engine, in
emission order.  `wait` is the fixed pre-archive delay (`setTimeout`),
recorded in milliseconds. -/
inductive Effect where
  | deleteErrorCallout (pid : Nat)
  | setTitleOnly (pid : Nat) (title : String)
  | setTitleAndClearRefresh (pid : Nat) (title : String)
  | appendErrorCallout (pid : Nat) (msg : String)
  | appendDuplicateNotice (pid : Nat) (existing : Nat)
  | wait (ms : Nat)
  | archivePage (pid : Nat)
  | updatePage (pid : Nat) (props : List (String × PropValue)) (icon cover : Option String)
  | createPage (newId : Nat) (props : List (String × PropValue)) (icon cover : Option String)
  deriving Repr, DecidableEq

/-- Applies one effect to one page. -/
def applyToPage (e : Effect) (p : NotionPage) : NotionPage :=
  match e with
  | .deleteErrorCallout pid =>
    if p.id == pid then
      { p with blocks :=
          match p.blocks.findIdx? (fun b => match b with
            | .errorCallout _ => true
            | _ => false) with
          | some i => p.blocks.eraseIdx i
          | none => p.blocks }
    else p
  | .setTitleOnly pid t =>
    if p.id == pid then { p with props := setProp p.props "Title" (.titleText t) } else p
  | .setTitleAndClearRefresh pid t =>
    if p.id == pid then
      let props1 := setProp p.props "Title" (.titleText t)
      { p with props := setProp props1 "Refresh Metadata" (.checkbox false) }
    else p
  | .appendErrorCallout pid msg =>
    if p.id == pid then { p with blocks := p.blocks ++ [.errorCallout msg] } else p
  | .appendDuplicateNotice pid existing =>
    if p.id == pid then { p with blocks := p.blocks ++ [.duplicateCallout existing] } else p
  | .wait _ => p
  | .archivePage pid =>
    if p.id == pid then { p with archived := true } else p
  | .updatePage pid props icon cover =>
    if p.id == pid then
      { p with props := mergeProps p.props props, icon := icon, cover := cover }
    else p
  | .createPage _ _ _ _ => p

/-- Applies one effect to the store. -/
def applyEffect (st : NotionStore) (e : Effect) : NotionStore :=
  match e with
  | .createPage newId props icon cover =>
    { pages := st.pages ++
        [{ id := newId, props := props, icon := icon, cover := cover }]
      nextId := st.nextId + 1 }
  | _ => { st with pages := st.pages.map (applyToPage e) }

/-- Store together with the trace of effects emitted so far. -/
def EngineState : Type := NotionStore × List Effect

/-- Emits one effect: applies it to the store and appends it to the trace. -/
def emit (s : EngineState) (e : Effect) : EngineState :=
  (applyEffect s.1 e, s.2 ++ [e])

/-- Icon reference sent with a page write (`details.poster ? externalUrl :
null`). -/
def iconOf (d : Details) : Option String :=
  if truthyStr d.poster then d.poster else none

/-- Cover reference sent with a page write (`details.backdrop ?
externalUrl : null`). -/
def coverOf (d : Details) : Option String :=
  if truthyStr d.backdrop then d.backdrop else none

/-- Embeds `updateNotionPage(pageId, details)`. -/
def updateNotionPage (s : EngineState) (pageId : Nat) (d : Details) : EngineState :=
  emit s (.updatePage pageId (constructNotionProperties d) (iconOf d) (coverOf d))

/-- Embeds `createNotionEpisodePage(seasonPageId, details)`: the property
payload plus a `Season` relation to the parent page. -/
def createNotionEpisodePage (s : EngineState) (seasonPageId : Nat) (d : Details) :
    EngineState :=
  emit s (.createPage s.1.nextId
    (setProp (constructNotionProperties d) "Season" (.relation [seasonPageId]))
    (iconOf d) (coverOf d))

/-- Embeds `createNotionSeasonPage(showPageId, details)`: create the season
page with a `Show` relation, then create each nested episode page under the
fresh season page. -/
def createNotionSeasonPage (s : EngineState) (showPageId : Nat) (t : DetailsTree) :
    EngineState :=
  let newId := s.1.nextId
  let s1 := emit s (.createPage newId
    (setProp (constructNotionProperties t.base) "Show" (.relation [showPageId]))
    (iconOf t.base) (coverOf t.base))
  match t.episodes with
  | some eps => eps.foldl (fun acc e => createNotionEpisodePage acc newId e.base) s1
  | none => s1

/-- Embeds `getSeasonPages(showPageId)`: database query for pages whose
`Show` relation contains the given page (archived pages are not returned by
Notion database queries). -/
def getSeasonPages (st : NotionStore) (showPageId : Nat) : List NotionPage :=
  st.pages.filter (fun p => !p.archived && p.relationContains "Show" showPageId)

/-- Embeds `getEpisodePages(seasonPageId)`. -/
def getEpisodePages (st : NotionStore) (seasonPageId : Nat) : List NotionPage :=
  st.pages.filter (fun p => !p.archived && p.relationContains "Season" seasonPageId)

/-- Page/record match on the external id
(`page.properties['TMDB ID'].number === details.tmdbId`).  The resolver's
constructors always set `tmdbId`, so the `none` case is unreachable for
engine inputs. -/
def matchesTmdbId (p : NotionPage) (tid : Option Nat) : Bool :=
  match tid with
  | some n => p.numberProp? "TMDB ID" == some (n : ℚ)
  | none => false

/-- Embeds `deleteMessageBlocks(pageId)`: find and delete the (first) red
error callout on the page, if any. -/
def deleteMessageBlocks (s : EngineState) (pageId : Nat) : EngineState :=
  emit s (.deleteErrorCallout pageId)

/-- Embeds `addErrorBlock(pageId, pageTitle, message)`: rewrite the title
without the trailing delimiter (also clearing the refresh flag), then attach
the red error callout. -/
def addErrorBlock (s : EngineState) (pageId : Nat) (pageTitle msg : String) :
    EngineState :=
  let newTitle := stripDelim pageTitle
  emit (emit s (.setTitleAndClearRefresh pageId newTitle)) (.appendErrorCallout pageId msg)

/-- Embeds `checkIfExists(pageId, pageTitle, tmdbId)`: query the database
for pages whose `TMDB ID` equals the record's external id; when the FIRST
result is a page other than the current one, strip the delimiter, attach
the duplicate notice linking to that page, wait the fixed 30-second delay,
archive the page and report `true`; otherwise report `false`.  Only
`results[0]` is ever inspected.  A `none` id models the unreachable call
with an undefined id (the query would fail and the caught error yields a
falsy return). -/
def checkIfExists (s : EngineState) (pageId : Nat) (pageTitle : String)
    (tmdbId : Option Nat) : Bool × EngineState :=
  match tmdbId with
  | none => (false, s)
  | some n =>
    let results := s.1.pages.filter
      (fun p => !p.archived && p.numberProp? "TMDB ID" == some (n : ℚ))
    match results.head? with
    | none => (false, s)
    | some existingPage =>
      if existingPage.id == pageId then (false, s)
      else
        let newTitle := stripDelim pageTitle
        let s1 := emit s (.setTitleOnly pageId newTitle)
        let s2 := emit s1 (.appendDuplicateNotice pageId existingPage.id)
        let s3 := emit s2 (.wait 30000)
        (true, emit s3 (.archivePage pageId))

/-- Input handed to the reconciliation engine: the resolver's structured
error record or a normalized tree (`details.error` truthiness decides the
branch; error messages are never empty). -/
inductive UpdateInput where
  | failure (msg : String)
  | success (t : DetailsTree)

/-- Reconciles one episode record under a parent page, as the episode loop
bodies of `updateDatabase` do: in update mode, look the episode up by
external id among the parent's current episode pages and update it in
place when found; otherwise (or in create mode) create it. -/
def reconcileEpisodeUnder (s : EngineState) (parentId : Nat)
    (updateExistingForTv : Bool) (e : DetailsTree) : EngineState :=
  if updateExistingForTv then
    let currentEpisodePages := getEpisodePages s.1 parentId
    match currentEpisodePages.find? (fun p => matchesTmdbId p e.base.tmdbId) with
    | some existingEpisodePage => updateNotionPage s existingEpisodePage.id e.base
    | none => createNotionEpisodePage s parentId e.base
  else createNotionEpisodePage s parentId e.base

/-- Reconciles one season tree under the show page, as the season loop body
of `updateDatabase` does: in update mode, look the season up by external id
among the show's current season pages; when found, update it in place and
reconcile its episodes the same way; when not found (or in create mode),
create the season page together with its nested episodes. -/
def reconcileSeason (s : EngineState) (pageId : Nat) (updateExistingForTv : Bool)
    (seasonTree : DetailsTree) : EngineState :=
  if updateExistingForTv then
    let currentSeasonPages := getSeasonPages s.1 pageId
    match currentSeasonPages.find? (fun p => matchesTmdbId p seasonTree.base.tmdbId) with
    | some existingSeasonPage =>
      let s1 := updateNotionPage s existingSeasonPage.id seasonTree.base
      match seasonTree.episodes with
      | some eps => eps.foldl
          (fun acc e => reconcileEpisodeUnder acc existingSeasonPage.id true e) s1
      | none => s1
    | none => createNotionSeasonPage s pageId seasonTree
  else createNotionSeasonPage s pageId seasonTree

/-- Detects the miniseries flattening case of `updateDatabase`
(`details.type === 'Miniseries' && details.seasons &&
details.seasons.length === 1 && details.seasons[0].episodes`), yielding the
single season's episode list when it applies. -/
def miniseriesEpisodes : DetailsTree → Option (List DetailsTree)
  | .node base (some [s]) _ =>
    if base.type == some "Miniseries" then s.episodes else none
  | _ => none

/-- Embeds `updateDatabase(page, details, updateExistingForTv)`: clear any
previous error annotation; on an error record rewrite the title and attach
the error callout and stop; otherwise run the duplicate check and stop when
it fires; otherwise reconcile child season/episode pages (flattening a
one-season miniseries), and finally write the page's own properties. -/
def updateDatabase (st : NotionStore) (page : NotionPage) (input : UpdateInput)
    (updateExistingForTv : Bool) : EngineState :=
  let pageId := page.id
  let pageTitle := page.titleText
  let s0 := deleteMessageBlocks (st, []) pageId
  match input with
  | .failure msg => addErrorBlock s0 pageId pageTitle msg
  | .success details =>
    let checkRes := checkIfExists s0 pageId pageTitle details.base.tmdbId
    if checkRes.1 then checkRes.2
    else
      let s1 := checkRes.2
      let s2 :=
        match miniseriesEpisodes details with
        | some eps =>
          eps.foldl (fun acc e => reconcileEpisodeUnder acc pageId updateExistingForTv e) s1
        | none =>
          match details.seasons with
          | some seasonsList =>
            seasonsList.foldl (fun acc t => reconcileSeason acc pageId updateExistingForTv t) s1
          | none =>
            match details.episodes with
            | some eps =>
              eps.foldl (fun acc e => reconcileEpisodeUnder acc pageId updateExistingForTv e) s1
            | none => s1
      updateNotionPage s2 pageId details.base

/-! ## Concrete fixtures used by counterexamples and witnesses -/

/-- Empty credits fixture. -/
def noCredits : Credits := { cast := [], crew := [] }

/-- Empty videos fixture. -/
def noVideos : Videos := { results := [] }

/-- Show payload fixture: status `Ended`, no composer credit. -/
def showFx : MediaData :=
  { id := 701, title := "", name := "Some Show", tagline := "", genres := []
    runtime := 0, status := "Ended", release_date := "", first_air_date := "2000-01-01"
    overview := "", poster_path := "", backdrop_path := "", vote_average := 7
    type := "", credits := noCredits, videos := noVideos, seasons := [] }

/-- Season payload fixture: past air date, no composer credit. -/
def seasonFx : SeasonData :=
  { id := 801, season_number := 2, name := "Season 2", air_date := "2000-06-01"
    overview := "", poster_path := "", vote_average := 7, credits := noCredits
    videos := noVideos, episodes := [] }

/-- Episode payload fixture: future air date, no composer credit. -/
def episodeFx : EpisodeData :=
  { id := 901, season_number := 2, episode_number := 5, name := "Finale"
    runtime := 45, air_date := "2099-01-01", overview := "", vote_average := 8
    credits := noCredits }

/-! ## Claim theorems -/

/-- C9: `constructNotionProperties` always includes the `Refresh Metadata`
property set to `false`, whatever fields the input record carries, so every
page create or property update resets the refresh-request flag. -/
theorem C9_refresh_flag_always_reset (details : Details) :
    ("Refresh Metadata", PropValue.checkbox false) ∈ constructNotionProperties details := by
  unfold constructNotionProperties
  simp

/-- C3 counterexample: at this concrete input, today (2026-10-12) is NOT
after the episode's own air date (2099-01-01), the show is not Canceled
(status `Ended`), yet the normalized episode status is `Released` — because
the source compares against the season's air date (2000-06-01), not the
episode's own. -/
theorem C3_status_own_air_date_counterexample :
    (constructEpisodeDetails episodeFx showFx seasonFx "2026-10-12").status = some "Released"
    ∧ jsStrGt "2026-10-12" episodeFx.air_date = false
    ∧ showFx.status = "Ended" := by
  refine ⟨?_, ?_, ?_⟩ <;> decide

/-- C3 (amended): the normalized status of a season or an episode equals
the show's status when the show is Canceled, and otherwise is `Released`
exactly when today is after the SEASON's air date (the season's own date
for a season, the parent season's date — not the episode's own — for an
episode), else the show's status. -/
theorem C3_status_derivation (seasonData : SeasonData) (showData : MediaData)
    (episodeData : EpisodeData) (today : String) :
    (constructSeasonDetails seasonData showData today).status =
      some (if showData.status = "Canceled" then showData.status
        else if jsStrGt today seasonData.air_date then "Released" else showData.status)
    ∧ (constructEpisodeDetails episodeData showData seasonData today).status =
      some (if showData.status = "Canceled" then showData.status
        else if jsStrGt today seasonData.air_date then "Released" else showData.status) := by
  by_cases hC : showData.status = "Canceled" <;>
    cases hA : jsStrGt today seasonData.air_date <;>
    simp [constructSeasonDetails, constructEpisodeDetails, hC, hA]

/-- C6: the episode composer is the first `Original Music Composer` crew
member of the episode's credits; when absent, the first of the season's
credits; when absent there too, the first of the show's credits; when
absent at all three levels, the empty string. -/
theorem C6_composer_fallback (episodeData : EpisodeData) (showData : MediaData)
    (seasonData : SeasonData) (today : String) :
    (∀ c, findCrewByJob episodeData.credits.crew "Original Music Composer" = some c →
      (constructEpisodeDetails episodeData showData seasonData today).composer = some c.name)
    ∧ (findCrewByJob episodeData.credits.crew "Original Music Composer" = none →
      ∀ c, findCrewByJob seasonData.credits.crew "Original Music Composer" = some c →
      (constructEpisodeDetails episodeData showData seasonData today).composer = some c.name)
    ∧ (findCrewByJob episodeData.credits.crew "Original Music Composer" = none →
      findCrewByJob seasonData.credits.crew "Original Music Composer" = none →
      ∀ c, findCrewByJob showData.credits.crew "Original Music Composer" = some c →
      (constructEpisodeDetails episodeData showData seasonData today).composer = some c.name)
    ∧ (findCrewByJob episodeData.credits.crew "Original Music Composer" = none →
      findCrewByJob seasonData.credits.crew "Original Music Composer" = none →
      findCrewByJob showData.credits.crew "Original Music Composer" = none →
      (constructEpisodeDetails episodeData showData seasonData today).composer = some "") := by
  refine ⟨?_, ?_, ?_, ?_⟩ <;> intros <;> simp [constructEpisodeDetails, *]

/-- Show payload fixture whose only composer credit is `X`, for the C6
witness. -/
def showComposerX : MediaData :=
  { showFx with credits := { cast := [], crew := [{ job := "Original Music Composer", name := "X" }] } }

/-- C6 witness: an episode with no composer credit, whose season has none,
whose show credits composer `X`, normalizes to composer `X`. -/
theorem C6_composer_fallback_witness :
    (constructEpisodeDetails episodeFx showComposerX seasonFx "2026-10-12").composer = some "X" :=
  (C6_composer_fallback episodeFx showComposerX seasonFx "2026-10-12").2.2.1
    (by decide) (by decide) { job := "Original Music Composer", name := "X" } (by decide)

/-- C5: trailer selection filters the video list to official YouTube
trailers; when none remain no trailer key is selected (empty key), and
otherwise the selected key belongs to a candidate whose publish date is
least among all candidates. -/
theorem C5_trailer_earliest (vs : List Video) :
    (vs.filter (fun v => v.type == "Trailer" && v.site == "YouTube" && v.official) = [] →
      trailerKeyOf vs = "")
    ∧ (vs.filter (fun v => v.type == "Trailer" && v.site == "YouTube" && v.official) ≠ [] →
      ∃ v ∈ vs.filter (fun v => v.type == "Trailer" && v.site == "YouTube" && v.official),
        trailerKeyOf vs = v.key ∧
        ∀ w ∈ vs.filter (fun v => v.type == "Trailer" && v.site == "YouTube" && v.official),
          v.published_at ≤ w.published_at) := by
  haveI instTot : IsTotal Video (fun a b => a.published_at ≤ b.published_at) :=
    ⟨fun a b => Nat.le_total a.published_at b.published_at⟩
  haveI instTr : IsTrans Video (fun a b => a.published_at ≤ b.published_at) :=
    ⟨fun _ _ _ hab hbc => Nat.le_trans hab hbc⟩
  constructor
  · intro h
    unfold trailerKeyOf sortedTrailers
    rw [h]
    rfl
  · intro h
    have hperm := List.perm_insertionSort
      (fun a b : Video => a.published_at ≤ b.published_at)
      (vs.filter (fun v => v.type == "Trailer" && v.site == "YouTube" && v.official))
    have hsorted := List.sorted_insertionSort
      (fun a b : Video => a.published_at ≤ b.published_at)
      (vs.filter (fun v => v.type == "Trailer" && v.site == "YouTube" && v.official))
    cases hs : sortedTrailers vs with
    | nil =>
      exfalso
      apply h
      have := hperm.symm
      rw [show List.insertionSort (fun a b : Video => a.published_at ≤ b.published_at)
          (vs.filter (fun v => v.type == "Trailer" && v.site == "YouTube" && v.official))
          = sortedTrailers vs from rfl, hs] at hperm
      exact hperm.symm.eq_nil
    | cons v t =>
      rw [show List.insertionSort (fun a b : Video => a.published_at ≤ b.published_at)
          (vs.filter (fun v => v.type == "Trailer" && v.site == "YouTube" && v.official))
          = sortedTrailers vs from rfl, hs] at hperm hsorted
      refine ⟨v, ?_, ?_, ?_⟩
      · exact hperm.subset (List.mem_cons_self v t)
      · unfold trailerKeyOf
        rw [hs]
        rfl
      · intro w hw
        have hw' : w ∈ v :: t := hperm.symm.subset hw
        rcases List.mem_cons.mp hw' with h1 | h2
        · exact h1 ▸ Nat.le_refl _
        · exact List.rel_of_sorted_cons hsorted w h2

/-- Video fixtures for the C5 witness: two official YouTube trailers whose
publish instants are the epoch values of 2021-06-01 and 2020-01-01. -/
def trailerLate : Video :=
  { type := "Trailer", site := "YouTube", official := true
    published_at := 1622505600000, key := "late2021" }

/-- Earlier official YouTube trailer fixture (2020-01-01). -/
def trailerEarly : Video :=
  { type := "Trailer", site := "YouTube", official := true
    published_at := 1577836800000, key := "early2020" }

/-- C5 witness: with the 2021-06-01 and 2020-01-01 official YouTube
trailers present, a least-dated candidate carries the selected key, and
that key is the 2020-01-01 entry's. -/
theorem C5_trailer_earliest_witness :
    (∃ v ∈ [trailerLate, trailerEarly].filter
        (fun v => v.type == "Trailer" && v.site == "YouTube" && v.official),
      trailerKeyOf [trailerLate, trailerEarly] = v.key ∧
      ∀ w ∈ [trailerLate, trailerEarly].filter
          (fun v => v.type == "Trailer" && v.site == "YouTube" && v.official),
        v.published_at ≤ w.published_at)
    ∧ trailerKeyOf [trailerLate, trailerEarly] = "early2020" :=
  ⟨(C5_trailer_earliest [trailerLate, trailerEarly]).2 (by decide), by decide⟩

/-- Show payload fixture with seasons 1, 2, 3, for the C4 concrete fetch. -/
def showThreeSeasons : MediaData :=
  { showFx with id := 7, seasons := [⟨1⟩, ⟨2⟩, ⟨3⟩] }

/-- Season payload fixture parameterized by number, for the C4 concrete
fetch. -/
def seasonNumbered (n : Nat) : SeasonData :=
  { seasonFx with id := 800 + n, season_number := n }

/-- Network oracle fixture serving show 7 with its seasons, for the C4
concrete fetch. -/
def apiThreeSeasons : TmdbApi :=
  { search := fun _ _ => none
    movieById := fun _ => none
    showById := fun i => if i == 7 then some showThreeSeasons else none
    seasonByNumber := fun i n => if i == 7 then some (seasonNumbered n) else none
    episodeByNumber := fun _ _ _ => none }

/-- C4: in incremental mode the resolver fetches exactly the season numbers
present on the show, positive, and not already known (and for a season,
exactly the episode numbers not already known); concretely, for a show with
seasons 1, 2, 3 and known set 1, 2, `fetchTelevisionShowDetails` fetches
only season 3. -/
theorem C4_incremental_fetch :
    (∀ (showData : MediaData) (currentSeasons : List Nat) (n : Nat),
      n ∈ newSeasonNumbers showData currentSeasons ↔
        ((∃ s ∈ showData.seasons, s.season_number = n) ∧ 0 < n ∧ n ∉ currentSeasons))
    ∧ (∀ (seasonData : SeasonData) (currentEpisodes : List Nat) (n : Nat),
      n ∈ newEpisodeNumbers seasonData currentEpisodes ↔
        ((∃ e ∈ seasonData.episodes, e.episode_number = n) ∧ n ∉ currentEpisodes))
    ∧ fetchTelevisionShowDetails apiThreeSeasons 7 true [1, 2] false [] =
        some { showData := showThreeSeasons
               seasonsData := some [{ seasonData := seasonNumbered 3, episodesData := none }]
               seasonData := none, episodesData := none } := by
  refine ⟨?_, ?_, by decide⟩
  · intro showData currentSeasons n
    unfold newSeasonNumbers
    simp only [List.mem_map, List.mem_filter, Bool.not_eq_true']
    constructor
    · rintro ⟨s, ⟨⟨hs, h0⟩, hc⟩, rfl⟩
      refine ⟨⟨s, hs, rfl⟩, by simpa using h0, ?_⟩
      simpa using hc
    · rintro ⟨⟨s, hs, rfl⟩, h0, hc⟩
      exact ⟨s, ⟨⟨hs, by simpa using h0⟩, by simpa using hc⟩, rfl⟩
  · intro seasonData currentEpisodes n
    unfold newEpisodeNumbers
    simp only [List.mem_map, List.mem_filter, Bool.not_eq_true']
    constructor
    · rintro ⟨e, ⟨he, hc⟩, rfl⟩
      exact ⟨⟨e, he, rfl⟩, by simpa using hc⟩
    · rintro ⟨⟨e, he, rfl⟩, hc⟩
      exact ⟨e, ⟨he, by simpa using hc⟩, rfl⟩

/-- A separator-free chunk splits to itself. -/
theorem splitBy_of_forall_not (p : Char → Bool) (xs : List Char)
    (h : ∀ a ∈ xs, p a = false) : splitBy p xs = [xs] := by
  induction xs with
  | nil => rfl
  | cons x xs ih =>
    have hx : p x = false := h x (List.mem_cons_self x xs)
    have ih' := ih (fun a ha => h a (List.mem_cons_of_mem x ha))
    simp [splitBy, hx, ih']

/-- Splitting a list that opens with a separator-free chunk followed by a
separator peels the chunk off. -/
theorem splitBy_append_sep (p : Char → Bool) (xs ys : List Char) (c : Char)
    (hxs : ∀ a ∈ xs, p a = false) (hc : p c = true) :
    splitBy p (xs ++ c :: ys) = xs :: splitBy p ys := by
  induction xs with
  | nil => simp [splitBy, hc]
  | cons x xs ih =>
    have hx : p x = false := hxs x (List.mem_cons_self x xs)
    have ih' := ih (fun a ha => hxs a (List.mem_cons_of_mem x ha))
    simp [splitBy, hx, ih']

/-- C8: parsing a well-formed input `T[k=v];` is total and yields the
trimmed `T` as main query together with the canonicalized, validated filter
pair when it passes validation, and the same main query with an empty
filter map when it does not — the malformed pair is silently discarded,
never surfaced as a parse error. -/
theorem C8_parse_wellformed (T k v : List Char)
    (hT : ∀ a ∈ T, (a == '[') = false)
    (hk : ∀ a ∈ k, (a == '[') = false ∧ (a == ',') = false
      ∧ (a == ':') = false ∧ (a == '=') = false)
    (hv : ∀ a ∈ v, (a == '[') = false ∧ (a == ',') = false
      ∧ (a == ':') = false ∧ (a == '=') = false) :
    parseQueryString ⟨T ++ '[' :: (k ++ '=' :: (v ++ [']', ';']))⟩ =
      { mainQuery := ⟨jsTrim T⟩
        filters :=
          if validateQueryFilters (mapAlias ⟨jsToLower (jsTrim k)⟩) ⟨jsToLower (jsTrim v)⟩
          then [(mapAlias ⟨jsToLower (jsTrim k)⟩, ⟨jsToLower (jsTrim v)⟩)]
          else [] } := by
  have hsliced : sliceDropLast (T ++ '[' :: (k ++ '=' :: (v ++ [']', ';'])))
      = T ++ '[' :: (k ++ '=' :: (v ++ [']'])) := by
    have harr : T ++ '[' :: (k ++ '=' :: (v ++ [']', ';']))
        = (T ++ '[' :: (k ++ '=' :: (v ++ [']']))) ++ [';'] := by
      simp
    rw [sliceDropLast, harr, List.dropLast_concat]
  have hrest : ∀ a ∈ k ++ '=' :: (v ++ [']']), (a == '[') = false := by
    intro a ha
    rcases List.mem_append.mp ha with h1 | h2
    · exact (hk a h1).1
    · rcases List.mem_cons.mp h2 with h3 | h4
      · subst h3; decide
      · rcases List.mem_append.mp h4 with h5 | h6
        · exact (hv a h5).1
        · rcases List.mem_singleton.mp h6 with rfl; decide
  have hsplit1 : splitBy (· == '[') (T ++ '[' :: (k ++ '=' :: (v ++ [']'])))
      = T :: [k ++ '=' :: (v ++ [']'])] := by
    rw [splitBy_append_sep (· == '[') T (k ++ '=' :: (v ++ [']'])) '[' hT (by decide)]
    rw [splitBy_of_forall_not (· == '[') _ hrest]
  have hinner : sliceDropLast (k ++ '=' :: (v ++ [']'])) = k ++ '=' :: v := by
    have harr : k ++ '=' :: (v ++ [']']) = (k ++ '=' :: v) ++ [']'] := by simp
    rw [sliceDropLast, harr, List.dropLast_concat]
  have hpairs : splitBy (· == ',') (k ++ '=' :: v) = [k ++ '=' :: v] := by
    apply splitBy_of_forall_not
    intro a ha
    rcases List.mem_append.mp ha with h1 | h2
    · exact (hk a h1).2.1
    · rcases List.mem_cons.mp h2 with h3 | h4
      · subst h3; decide
      · exact (hv a h4).2.1
  have hitems : splitBy (fun c => c == ':' || c == '=') (k ++ '=' :: v) = [k, v] := by
    rw [splitBy_append_sep (fun c => c == ':' || c == '=') k v '='
      (fun a ha => by simp [(hk a ha).2.2.1, (hk a ha).2.2.2]) (by decide)]
    rw [splitBy_of_forall_not _ v
      (fun a ha => by simp [(hv a ha).2.2.1, (hv a ha).2.2.2])]
  show parseQueryString ⟨T ++ '[' :: (k ++ '=' :: (v ++ [']', ';']))⟩ = _
  unfold parseQueryString
  simp only [String.data]
  rw [hsliced, hsplit1]
  simp only [List.headD, List.getElem?_cons_succ, List.getElem?_cons_zero, parseFilters]
  have hne : (k ++ '=' :: (v ++ [']'])).isEmpty = false := by
    cases k <;> rfl
  rw [hne]
  simp only [Bool.false_eq_true, if_false, hinner, hpairs, List.foldl_cons, List.foldl_nil]
  have hkeq : pairKey (k ++ '=' :: v) = mapAlias ⟨jsToLower (jsTrim k)⟩ := by
    unfold pairKey pairItems
    rw [hitems]
    rfl
  have hveq : pairValue (k ++ '=' :: v) = ⟨jsToLower (jsTrim v)⟩ := by
    unfold pairValue pairItems
    rw [hitems]
    rfl
  unfold parseFilterPair
  rw [hkeq, hveq]
  by_cases hval : validateQueryFilters (mapAlias ⟨jsToLower (jsTrim k)⟩) ⟨jsToLower (jsTrim v)⟩
  · simp [hval, jsObjSet]
  · simp [hval]

/-- C8 witness: parsing `Stranger Things[s=2];` keeps the alias-canonicalized
validated pair, yielding main query `Stranger Things` and filter map
`season = 2`. -/
theorem C8_parse_wellformed_witness :
    parseQueryString "Stranger Things[s=2];" =
      { mainQuery := "Stranger Things", filters := [("season", "2")] } := by
  have h := C8_parse_wellformed ("Stranger Things".data) ("s".data) ("2".data)
    (by decide) (by decide) (by decide)
  have heq : ("Stranger Things[s=2];" : String)
      = ⟨"Stranger Things".data ++ '[' :: ("s".data ++ '=' :: ("2".data ++ [']', ';']))⟩ := by
    decide
  rw [heq, h]
  decide

/-- C7: whenever the parsed query has a non-empty main query and carries an
`episode` filter but no `season` filter, resolution returns the structured
validation-error record — whatever the other filters, the network oracle or
the date are.  The embedding is a total function, so no exception can reach
the caller. -/
theorem C7_episode_without_season_is_error (api : TmdbApi) (today name : String)
    (hmain : (parseQueryString name).mainQuery ≠ "")
    (hep : truthyStr ((parseQueryString name).filter? "episode") = true)
    (hse : truthyStr ((parseQueryString name).filter? "season") = false) :
    fetchTMDBDetails api today name =
      .failure "If you specify an episode number, you must also specify the season number!" := by
  unfold fetchTMDBDetails
  have h1 : ((parseQueryString name).mainQuery == "") = false := by
    simp [hmain]
  simp [h1, hep, hse]

/-- Network oracle on which every request fails, for witnesses that must
not depend on network behavior. -/
def failingApi : TmdbApi :=
  { search := fun _ _ => none, movieById := fun _ => none, showById := fun _ => none
    seasonByNumber := fun _ _ => none, episodeByNumber := fun _ _ _ => none }

/-- C7 witness: the query `Dark[e=3, year=2017];` (episode filter, no
season filter, another filter present) resolves to the structured
validation error. -/
theorem C7_episode_without_season_is_error_witness :
    fetchTMDBDetails failingApi "2026-10-12" "Dark[e=3, year=2017];" =
      .failure "If you specify an episode number, you must also specify the season number!" :=
  C7_episode_without_season_is_error failingApi "2026-10-12" "Dark[e=3, year=2017];"
    (by decide) (by decide) (by decide)

/-- C2 counterexample: a language filter with a two-letter alphabetic value
(under each of the keys `language`, `lang`, `l`) is NOT kept in the
validated filter map — the final revision dropped language support. -/
theorem C2_language_filter_counterexample :
    parseQueryString "Alien[language=en];" = { mainQuery := "Alien", filters := [] }
    ∧ parseQueryString "Alien[lang=en];" = { mainQuery := "Alien", filters := [] }
    ∧ parseQueryString "Alien[l=en];" = { mainQuery := "Alien", filters := [] } := by
  refine ⟨?_, ?_, ?_⟩ <;> decide

/-- A filter pair that validates has its (canonicalized) key among the
valid keys. -/
theorem validate_true_key_valid (key value : String)
    (h : validateQueryFilters key value = true) : validKeys.contains key = true := by
  by_cases hc : validKeys.contains key = true
  · exact hc
  · exfalso
    unfold validateQueryFilters at h
    rw [Bool.not_eq_true] at hc
    rw [hc] at h
    simp at h

/-- Keys present after a JS object assignment come from the old map or are
the assigned key. -/
theorem mem_keys_jsObjSet (m : List (String × String)) (k v a : String)
    (h : a ∈ (jsObjSet m k v).map Prod.fst) : a ∈ m.map Prod.fst ∨ a = k := by
  unfold jsObjSet at h
  by_cases hmem : m.any (fun p => p.1 == k) = true
  · rw [if_pos hmem, List.map_map] at h
    rcases List.mem_map.mp h with ⟨p, hp, hpa⟩
    by_cases hpk : (p.1 == k) = true
    · right
      have hka : (k, v).1 = a := by simpa [Function.comp, hpk] using hpa
      exact hka.symm
    · left
      have hpne : ¬(p.1 = k) := by simpa using hpk
      have hpa' : p.1 = a := by
        simpa [Function.comp, hpne] using hpa
      exact hpa' ▸ List.mem_map.mpr ⟨p, hp, rfl⟩
  · rw [if_neg hmem, List.map_append] at h
    rcases List.mem_append.mp h with h1 | h2
    · exact Or.inl h1
    · exact Or.inr (by simpa using h2)

/-- Processing one filter pair never introduces the key `language` (it is
not a valid key in the final revision). -/
theorem parseFilterPair_no_language (acc : List (String × String)) (pair : List Char)
    (h : "language" ∉ acc.map Prod.fst) :
    "language" ∉ (parseFilterPair acc pair).map Prod.fst := by
  unfold parseFilterPair
  split
  · intro hmem
    rcases mem_keys_jsObjSet _ _ _ _ hmem with h1 | h2
    · exact h h1
    · rename_i hval
      rw [← h2] at hval
      have := validate_true_key_valid _ _ hval
      simp [validKeys] at this
  · exact h

/-- The filter-pair fold never introduces the key `language`. -/
theorem foldl_parseFilterPair_no_language (pairs : List (List Char))
    (acc : List (String × String)) (h : "language" ∉ acc.map Prod.fst) :
    "language" ∉ (pairs.foldl parseFilterPair acc).map Prod.fst := by
  induction pairs generalizing acc with
  | nil => exact h
  | cons p ps ih => exact ih _ (parseFilterPair_no_language _ _ h)

/-- A parsed filter map never contains the key `language`. -/
theorem parseFilters_no_language (o : Option (List Char)) :
    "language" ∉ (parseFilters o).map Prod.fst := by
  cases o with
  | none => simp [parseFilters]
  | some fs =>
    unfold parseFilters
    by_cases he : fs.isEmpty
    · simp [he]
    · simp only [he, Bool.false_eq_true, if_false]
      exact foldl_parseFilterPair_no_language _ _ (by simp)

/-- C2 (amended): the final revision does not support language filters —
`validateQueryFilters` rejects the keys `language`, `lang` and `l` for
every value, no parsed query's validated filter map ever contains a
`language` key, and the search request built by the resolver never carries
a `language` parameter. -/
theorem C2_language_unsupported :
    (∀ value : String,
      validateQueryFilters "language" value = false
      ∧ validateQueryFilters "lang" value = false
      ∧ validateQueryFilters "l" value = false)
    ∧ (∀ queryString : String,
      "language" ∉ (parseQueryString queryString).filters.map Prod.fst)
    ∧ (∀ q : TmdbQuery, "language" ∉ (buildSearchOptions q).params.map Prod.fst) := by
  refine ⟨fun value => ⟨rfl, rfl, rfl⟩, ?_, ?_⟩
  · intro queryString
    exact parseFilters_no_language _
  · intro q
    unfold buildSearchOptions
    by_cases h1 : truthyStr (q.filter? "type") = true
    · rw [if_pos h1]
      by_cases h3 : movieTypes.contains ((q.filter? "type").getD "") = true
      · rw [if_pos h3]
        by_cases h2 : truthyStr (q.filter? "year") = true
        · rw [if_pos h2]; simp
        · rw [if_neg h2]; simp
      · rw [if_neg h3]
        by_cases h4 : tvTypes.contains ((q.filter? "type").getD "") = true
        · rw [if_pos h4]
          by_cases h2 : truthyStr (q.filter? "year") = true
          · rw [if_pos h2]; simp
          · rw [if_neg h2]; simp
        · rw [if_neg h4]; simp
    · rw [if_neg h1]; simp

/-- C2 witness: the concrete query `Alien[lang=en];` yields a filter map
with no `language` key. -/
theorem C2_language_unsupported_witness :
    "language" ∉ (parseQueryString "Alien[lang=en];").filters.map Prod.fst :=
  C2_language_unsupported.2.1 "Alien[lang=en];"

/-- Membership in the key list of one truthiness-guarded property chunk. -/
theorem mem_keys_guard (c : Bool) (k a : String) (v : PropValue) :
    a ∈ (if c = true then [(k, v)] else []).map Prod.fst ↔ c = true ∧ a = k := by
  cases c <;> simp

/-- C10 counterexample: a record whose genre list (resp. cast list) is
present but empty still produces the `Genre` (resp. `Cast`) property — with
an empty value — because a JavaScript array is truthy even when empty, so
the claimed \"empty fields are always omitted\" fails for list fields. -/
theorem C10_empty_list_counterexample :
    ("Genre", PropValue.multiSelect []) ∈
      constructNotionProperties { genres := some [] }
    ∧ ("Cast", PropValue.richText "") ∈
      constructNotionProperties { cast := some [] } := by
  refine ⟨?_, ?_⟩ <;> decide

/-- C10 (amended): every scalar field that is absent, empty or zero is
omitted from the property payload (so an update never overwrites such a
property), while the list fields `genres` and `cast` are omitted only when
absent — a present-but-empty list still produces its (empty) property. -/
theorem C10_falsy_fields_omitted (d : Details) :
    ((d.title = none ∨ d.title = some "") →
      "Title" ∉ (constructNotionProperties d).map Prod.fst)
    ∧ ((d.tagline = none ∨ d.tagline = some "") →
      "Tagline" ∉ (constructNotionProperties d).map Prod.fst)
    ∧ ((d.releaseDate = none ∨ d.releaseDate = some "") →
      "Release Date" ∉ (constructNotionProperties d).map Prod.fst)
    ∧ ((d.status = none ∨ d.status = some "") →
      "Release Status" ∉ (constructNotionProperties d).map Prod.fst)
    ∧ ((d.runtime = none ∨ d.runtime = some 0) →
      "Runtime" ∉ (constructNotionProperties d).map Prod.fst)
    ∧ ((d.synopsis = none ∨ d.synopsis = some "") →
      "Synopsis" ∉ (constructNotionProperties d).map Prod.fst)
    ∧ ((d.director = none ∨ d.director = some "") →
      "Director" ∉ (constructNotionProperties d).map Prod.fst)
    ∧ ((d.composer = none ∨ d.composer = some "") →
      "Composer" ∉ (constructNotionProperties d).map Prod.fst)
    ∧ ((d.trailer = none ∨ d.trailer = some "") →
      "Trailer" ∉ (constructNotionProperties d).map Prod.fst)
    ∧ ((d.rating = none ∨ d.rating = some 0) →
      "TMDB Rating" ∉ (constructNotionProperties d).map Prod.fst)
    ∧ ((d.seasonNumber = none ∨ d.seasonNumber = some 0) →
      "Season Number" ∉ (constructNotionProperties d).map Prod.fst)
    ∧ ((d.episodeNumber = none ∨ d.episodeNumber = some 0) →
      "Episode Number" ∉ (constructNotionProperties d).map Prod.fst)
    ∧ ((d.type = none ∨ d.type = some "") →
      "Type" ∉ (constructNotionProperties d).map Prod.fst)
    ∧ ((d.tmdbId = none ∨ d.tmdbId = some 0) →
      "TMDB ID" ∉ (constructNotionProperties d).map Prod.fst)
    ∧ (d.genres = none →
      "Genre" ∉ (constructNotionProperties d).map Prod.fst)
    ∧ (d.cast = none →
      "Cast" ∉ (constructNotionProperties d).map Prod.fst) := by
  refine ⟨?_, ?_, ?_, ?_, ?_, ?_, ?_, ?_, ?_, ?_, ?_, ?_, ?_, ?_, ?_, ?_⟩ <;> intro h
  · have hf : truthyStr d.title = false := by rcases h with h | h <;> simp [h, truthyStr]
    simp only [constructNotionProperties, List.map_append, List.mem_append, mem_keys_guard]
    simp [hf]
  · have hf : truthyStr d.tagline = false := by rcases h with h | h <;> simp [h, truthyStr]
    simp only [constructNotionProperties, List.map_append, List.mem_append, mem_keys_guard]
    simp [hf]
  · have hf : truthyStr d.releaseDate = false := by rcases h with h | h <;> simp [h, truthyStr]
    simp only [constructNotionProperties, List.map_append, List.mem_append, mem_keys_guard]
    simp [hf]
  · have hf : truthyStr d.status = false := by rcases h with h | h <;> simp [h, truthyStr]
    simp only [constructNotionProperties, List.map_append, List.mem_append, mem_keys_guard]
    simp [hf]
  · have hf : truthyNat d.runtime = false := by rcases h with h | h <;> simp [h, truthyNat]
    simp only [constructNotionProperties, List.map_append, List.mem_append, mem_keys_guard]
    simp [hf]
  · have hf : truthyStr d.synopsis = false := by rcases h with h | h <;> simp [h, truthyStr]
    simp only [constructNotionProperties, List.map_append, List.mem_append, mem_keys_guard]
    simp [hf]
  · have hf : truthyStr d.director = false := by rcases h with h | h <;> simp [h, truthyStr]
    simp only [constructNotionProperties, List.map_append, List.mem_append, mem_keys_guard]
    simp [hf]
  · have hf : truthyStr d.composer = false := by rcases h with h | h <;> simp [h, truthyStr]
    simp only [constructNotionProperties, List.map_append, List.mem_append, mem_keys_guard]
    simp [hf]
  · have hf : truthyStr d.trailer = false := by rcases h with h | h <;> simp [h, truthyStr]
    simp only [constructNotionProperties, List.map_append, List.mem_append, mem_keys_guard]
    simp [hf]
  · have hf : truthyRat d.rating = false := by rcases h with h | h <;> simp [h, truthyRat]
    simp only [constructNotionProperties, List.map_append, List.mem_append, mem_keys_guard]
    simp [hf]
  · have hf : truthyNat d.seasonNumber = false := by rcases h with h | h <;> simp [h, truthyNat]
    simp only [constructNotionProperties, List.map_append, List.mem_append, mem_keys_guard]
    simp [hf]
  · have hf : truthyNat d.episodeNumber = false := by rcases h with h | h <;> simp [h, truthyNat]
    simp only [constructNotionProperties, List.map_append, List.mem_append, mem_keys_guard]
    simp [hf]
  · have hf : truthyStr d.type = false := by rcases h with h | h <;> simp [h, truthyStr]
    simp only [constructNotionProperties, List.map_append, List.mem_append, mem_keys_guard]
    simp [hf]
  · have hf : truthyNat d.tmdbId = false := by rcases h with h | h <;> simp [h, truthyNat]
    simp only [constructNotionProperties, List.map_append, List.mem_append, mem_keys_guard]
    simp [hf]
  · have hf : truthyList d.genres = false := by simp [h, truthyList]
    simp only [constructNotionProperties, List.map_append, List.mem_append, mem_keys_guard]
    simp [hf]
  · have hf : truthyList d.cast = false := by simp [h, truthyList]
    simp only [constructNotionProperties, List.map_append, List.mem_append, mem_keys_guard]
    simp [hf]

/-- C10 witness: for the all-absent record every scalar property and both
list properties are omitted. -/
theorem C10_falsy_fields_omitted_witness :
    "Title" ∉ (constructNotionProperties {}).map Prod.fst
    ∧ "Runtime" ∉ (constructNotionProperties {}).map Prod.fst
    ∧ "TMDB Rating" ∉ (constructNotionProperties {}).map Prod.fst
    ∧ "Genre" ∉ (constructNotionProperties {}).map Prod.fst
    ∧ "Cast" ∉ (constructNotionProperties {}).map Prod.fst := by
  have h := C10_falsy_fields_omitted {}
  exact ⟨h.1 (Or.inl rfl), h.2.2.2.2.1 (Or.inl rfl), h.2.2.2.2.2.2.2.2.2.1 (Or.inl rfl),
    h.2.2.2.2.2.2.2.2.2.2.2.2.2.2.1 rfl, h.2.2.2.2.2.2.2.2.2.2.2.2.2.2.2 rfl⟩

/-- Tests for an archive effect on the given page. -/
def Effect.isArchiveOf (pid : Nat) : Effect → Bool
  | .archivePage p => p == pid
  | _ => false

/-- Tests for a duplicate-notice effect on the given page. -/
def Effect.isDupNoticeOf (pid : Nat) : Effect → Bool
  | .appendDuplicateNotice p _ => p == pid
  | _ => false

/-- Tests for a property-update effect on the given page. -/
def Effect.isUpdateOf (pid : Nat) : Effect → Bool
  | .updatePage p _ _ _ => p == pid
  | _ => false

/-- Movie record fixture with external id 550, as a normalized tree. -/
def dupTree : DetailsTree :=
  .node { title := some "Fight Club", type := some "Movie", tmdbId := some 550 } none none

/-- Page fixture: the page currently being processed, already carrying
external id 550. -/
def pageSelf : NotionPage :=
  { id := 1, props := [("Title", PropValue.titleText "Fight Club"),
      ("TMDB ID", PropValue.number 550)] }

/-- Page fixture: a DIFFERENT page also carrying external id 550. -/
def pageOther : NotionPage :=
  { id := 2, props := [("Title", PropValue.titleText "Fight Club (copy)"),
      ("TMDB ID", PropValue.number 550)] }

/-- Store fixture in which the processed page precedes the other page that
carries the same external id. -/
def storeSelfFirst : NotionStore := { pages := [pageSelf, pageOther], nextId := 10 }

/-- C1 counterexample: in `storeSelfFirst` another page (id 2) carries the
same external id 550 as the record being written to page 1, yet
`updateDatabase` does NOT flag page 1 as a duplicate — `checkIfExists`
inspects only the first query result, which is page 1 itself — and instead
proceeds to sync: no archive and no duplicate notice is emitted, the page's
own properties ARE written, and page 1 ends unarchived. -/
theorem C1_self_first_counterexample :
    (∃ p ∈ storeSelfFirst.pages, p.id ≠ pageSelf.id ∧ p.numberProp? "TMDB ID" = some 550)
    ∧ (updateDatabase storeSelfFirst pageSelf (.success dupTree) true).2.all
        (fun e => !(Effect.isArchiveOf pageSelf.id e || Effect.isDupNoticeOf pageSelf.id e)) = true
    ∧ (updateDatabase storeSelfFirst pageSelf (.success dupTree) true).2.any
        (Effect.isUpdateOf pageSelf.id) = true
    ∧ (updateDatabase storeSelfFirst pageSelf (.success dupTree) true).1.pages.all
        (fun p => !(p.id == pageSelf.id) || !p.archived) = true := by
  refine ⟨?_, ?_, ?_, ?_⟩ <;> decide

/-- Deleting the error callout on some page changes no page's id, property
map or archived flag. -/
theorem applyToPage_delete_fields (pid : Nat) (p : NotionPage) :
    (applyToPage (.deleteErrorCallout pid) p).id = p.id
    ∧ (applyToPage (.deleteErrorCallout pid) p).props = p.props
    ∧ (applyToPage (.deleteErrorCallout pid) p).archived = p.archived := by
  unfold applyToPage
  by_cases hp : (p.id == pid) = true <;> simp [hp]

/-- Deleting the error callout preserves numeric properties. -/
theorem numberProp_applyToPage_delete (pid : Nat) (p : NotionPage) (key : String) :
    (applyToPage (.deleteErrorCallout pid) p).numberProp? key = p.numberProp? key := by
  unfold NotionPage.numberProp? NotionPage.prop?
  rw [(applyToPage_delete_fields pid p).2.1]

/-- The duplicate query sees the same pages, in the same order, after the
error-callout cleanup as before it. -/
theorem filter_pages_applyEffect_delete (st : NotionStore) (pid : Nat) (q : ℚ) :
    ((applyEffect st (.deleteErrorCallout pid)).pages.filter
      (fun p => !p.archived && p.numberProp? "TMDB ID" == some q))
    = (st.pages.filter (fun p => !p.archived && p.numberProp? "TMDB ID" == some q)).map
        (applyToPage (.deleteErrorCallout pid)) := by
  show (st.pages.map (applyToPage (.deleteErrorCallout pid))).filter _ = _
  have hcomp : ((fun p : NotionPage => !p.archived && p.numberProp? "TMDB ID" == some q)
      ∘ applyToPage (.deleteErrorCallout pid))
      = (fun p : NotionPage => !p.archived && p.numberProp? "TMDB ID" == some q) := by
    funext p
    simp only [Function.comp]
    rw [(applyToPage_delete_fields pid p).2.2, numberProp_applyToPage_delete]
  rw [List.filter_map, hcomp]

/-- Pending-page fixture A (title still carries the delimiter, no external
id yet). -/
def pendingA : NotionPage := { id := 1, props := [("Title", PropValue.titleText "Alien;")] }

/-- Pending-page fixture B: a second pending page with the same query. -/
def pendingB : NotionPage := { id := 2, props := [("Title", PropValue.titleText "Alien;")] }

/-- Store fixture holding the two pending pages. -/
def pendingStore : NotionStore := { pages := [pendingA, pendingB], nextId := 10 }

/-- Movie record both pending pages resolve to (external id 348). -/
def alienTree : DetailsTree :=
  .node { title := some "Alien", type := some "Movie", tmdbId := some 348 } none none

/-- Engine state after page A is reconciled. -/
def pendingFirstPass : EngineState :=
  updateDatabase pendingStore pendingA (.success alienTree) false

/-- Engine state after page B is then reconciled against the updated
store. -/
def pendingSecondPass : EngineState :=
  updateDatabase pendingFirstPass.1 pendingB (.success alienTree) false

/-- C1 (amended): when the FIRST page of the store's external-id query is a
page other than the current one, `updateDatabase` on a success record runs
exactly the duplicate flow — cleanup, delimiter-stripped title write, a
duplicate notice linking to that first page, the fixed 30000 ms delay, then
archival — and in particular writes none of the page's properties and
creates no children.  Moreover, for the two concrete pending pages of
`pendingStore` resolving to the same external id, processed sequentially,
page A ends synced (properties and external id written, not archived, no
notice) and page B ends duplicate-archived (archived, no properties
written, delimiter stripped, notice linking to page A). -/
theorem C1_duplicate_detection (st : NotionStore) (page : NotionPage) (t : DetailsTree)
    (flag : Bool) (n : Nat) (first : NotionPage)
    (htid : t.base.tmdbId = some n)
    (hfirst : (st.pages.filter
      (fun p => !p.archived && p.numberProp? "TMDB ID" == some (n : ℚ))).head? = some first)
    (hne : first.id ≠ page.id) :
    ((updateDatabase st page (.success t) flag).2 =
      [Effect.deleteErrorCallout page.id,
       Effect.setTitleOnly page.id (stripDelim page.titleText),
       Effect.appendDuplicateNotice page.id first.id,
       Effect.wait 30000,
       Effect.archivePage page.id])
    ∧ ((pendingSecondPass.1.pages.find? (fun p => p.id == pendingA.id)).map
        (fun p => (p.archived, p.numberProp? "TMDB ID", p.blocks)))
      = some (false, some (348 : ℚ), [])
    ∧ ((pendingSecondPass.1.pages.find? (fun p => p.id == pendingB.id)).map
        (fun p => (p.archived, p.numberProp? "TMDB ID", p.blocks, p.titleText)))
      = some (true, none, [CalloutBlock.duplicateCallout pendingA.id], "Alien") := by
  refine ⟨?_, by decide, by decide⟩
  unfold updateDatabase deleteMessageBlocks
  have hres : ((applyEffect st (Effect.deleteErrorCallout page.id)).pages.filter
      (fun p => !p.archived && p.numberProp? "TMDB ID" == some (n : ℚ))).head?
      = some (applyToPage (Effect.deleteErrorCallout page.id) first) := by
    rw [filter_pages_applyEffect_delete, List.head?_map, hfirst]
    rfl
  have hid : (applyToPage (Effect.deleteErrorCallout page.id) first).id = first.id :=
    (applyToPage_delete_fields page.id first).1
  have hbeq : ((applyToPage (Effect.deleteErrorCallout page.id) first).id == page.id) = false := by
    rw [hid]
    exact beq_eq_false_iff_ne.mpr hne
  dsimp only
  rw [htid]
  simp only [checkIfExists, emit]
  rw [hres]
  simp only [hbeq, Bool.false_eq_true, if_false, if_true]
  simp [emit, hid]

/-- Existing page fixture carrying external id 949. -/
def dupPageExisting : NotionPage :=
  { id := 3, props := [("Title", PropValue.titleText "Heat"),
      ("TMDB ID", PropValue.number 949)] }

/-- Pending page fixture resolving to the already-present external id
949. -/
def dupPagePending : NotionPage :=
  { id := 4, props := [("Title", PropValue.titleText "Heat;")] }

/-- Store fixture for the C1 witness. -/
def dupStore : NotionStore := { pages := [dupPageExisting, dupPagePending], nextId := 20 }

/-- Movie record fixture with the already-present external id 949. -/
def heatTree : DetailsTree :=
  .node { title := some "Heat", type := some "Movie", tmdbId := some 949 } none none

/-- C1 witness: reconciling the pending page 4 with a record whose external
id 949 is already carried by page 3 emits exactly the duplicate flow:
strip the delimiter, attach the notice linking to page 3, wait 30000 ms,
archive — and nothing else. -/
theorem C1_duplicate_detection_witness :
    (updateDatabase dupStore dupPagePending (.success heatTree) false).2 =
      [Effect.deleteErrorCallout 4, Effect.setTitleOnly 4 "Heat",
       Effect.appendDuplicateNotice 4 3, Effect.wait 30000, Effect.archivePage 4] := by
  have h := (C1_duplicate_detection dupStore dupPagePending heatTree false 949 dupPageExisting
    rfl (by decide) (by decide)).1
  rw [h]
  rfl

end TmdbNotion
